import Mathlib

/-!
Shallow embedding of the configuration-validation engine of the
`ai-recipe-api` repository (`src/env_manager.py`, plus the recommendation
renderers in `src/main.py` and `src/validate_config.py`).

The process environment is modelled as a partial map from variable names to
string values; `os.getenv name` becomes `env name : Option String`.
Python truthiness of an optional string (`if value:`) is modelled explicitly
(`none` and the empty string are falsy).
-/

namespace RecipeEnv

/-- `ConfigStatus` enum from `env_manager.py`. -/
inductive ConfigStatus where
  | valid
  | missing
  | invalid
  | warning
deriving DecidableEq, Repr

/-- The `.value` attribute of the Python enum: its string tag. -/
def ConfigStatus.value : ConfigStatus → String
  | .valid => "valid"
  | .missing => "missing"
  | .invalid => "invalid"
  | .warning => "warning"

/-- `ConfigItem` dataclass from `env_manager.py`. -/
structure ConfigItem where
  name : String
  value : Option String
  status : ConfigStatus
  message : String
  required : Bool := true
deriving DecidableEq, Repr

/-- `ConfigReport` dataclass from `env_manager.py` (without `to_dict`,
which is embedded separately below). -/
structure ConfigReport where
  items : List ConfigItem
  overall_status : ConfigStatus
  summary : String
deriving DecidableEq, Repr

/-- An environment snapshot: a partial map from variable names to values. -/
abbrev Env := String → Option String

/-- One entry of `REQUIRED_VARS` / `OPTIONAL_VARS`: description, validation
predicate, error message and (for optional variables) a default value.
`default := none` models both an absent `"default"` key and `"default": None`,
which `config.get("default")` conflates. -/
structure VarSpec where
  description : String
  validator : String → Bool
  error_msg : String
  default : Option String := none

/-- Characters stripped by Python's `str.strip()` (ASCII whitespace range). -/
def isPyWs (c : Char) : Bool :=
  c = ' ' || c = '\t' || c = '\n' || c = '\r' || c = '\x0b' || c = '\x0c'

/-- Python `s.strip()`: drop leading and trailing whitespace. -/
def pystrip (s : String) : String :=
  String.mk (((s.toList.dropWhile isPyWs).reverse.dropWhile isPyWs).reverse)

/-- Python `s.startswith(p)`: character-wise prefix test. -/
def pyStartsWith (s p : String) : Bool :=
  p.toList.isPrefixOf s.toList

/-- Split a character list at every occurrence of `sep` (Python
`str.split(sep)` semantics: `n` separators yield `n + 1` pieces, empty
pieces included). -/
def splitOnCharList (sep : Char) : List Char → List (List Char)
  | [] => [[]]
  | c :: cs =>
    let rest := splitOnCharList sep cs
    if c = sep then [] :: rest
    else
      match rest with
      | [] => [[c]]
      | r :: rs => (c :: r) :: rs

/-- Python `s.split(sep)` for a one-character separator. -/
def pySplit (s : String) (sep : Char) : List String :=
  (splitOnCharList sep s.toList).map String.mk

/-- A character allowed in the host part of the CORS-origin regex
`[a-zA-Z0-9.-]`. -/
def isHostChar (c : Char) : Bool :=
  c.isAlpha || c.isDigit || c = '.' || c = '-'

/-- The anchored regex match used by `_validate_cors_origins`:
`^https?://[a-zA-Z0-9.-]+(?::\d+)?$`. The host charset excludes a colon and
the port is all digits, so splitting the remainder on a colon is an exact
rendering of the regex. -/
def matchOriginRegex (s : String) : Bool :=
  let cs := s.toList
  let rest? : Option (List Char) :=
    if pyStartsWith s "http://" then some (cs.drop 7)
    else if pyStartsWith s "https://" then some (cs.drop 8)
    else none
  match rest? with
  | none => false
  | some rest =>
    match splitOnCharList ':' rest with
    | [h] => !h.isEmpty && h.all isHostChar
    | [h, p] => !h.isEmpty && h.all isHostChar && !p.isEmpty && p.all Char.isDigit
    | _ => false

/-- `EnvironmentManager._validate_cors_origins`. -/
def validate_cors_origins (origins_str : String) : Bool :=
  if origins_str == "" then false
  else
    let origins := (pySplit origins_str ',').filterMap fun o =>
      let t := pystrip o
      if t == "" then none else some t
    if origins.isEmpty then false
    else origins.all fun origin => origin == "*" || matchOriginRegex origin

/-- Schema entry for `SECRET_KEY` in `REQUIRED_VARS`. -/
def SECRET_KEY_SPEC : VarSpec :=
  { description := "JWT密钥"
    validator := fun x => decide (32 ≤ x.length)
    error_msg := "SECRET_KEY必须至少32个字符" }

/-- Schema entry for `CORS_ORIGINS` in `REQUIRED_VARS`. -/
def CORS_ORIGINS_SPEC : VarSpec :=
  { description := "CORS允许的源"
    validator := validate_cors_origins
    error_msg := "CORS_ORIGINS格式无效，应为逗号分隔的URL列表" }

/-- Schema entry for `DATABASE_URL` in `OPTIONAL_VARS`. -/
def DATABASE_URL_SPEC : VarSpec :=
  { description := "数据库连接URL"
    validator := fun x =>
      pyStartsWith x "sqlite://" || pyStartsWith x "postgresql://" || pyStartsWith x "mysql://"
    error_msg := "DATABASE_URL格式无效"
    default := some "sqlite:///./recipes.db" }

/-- Schema entry for `RAILWAY_STATIC_URL` in `OPTIONAL_VARS`. -/
def RAILWAY_STATIC_URL_SPEC : VarSpec :=
  { description := "Railway静态URL"
    validator := fun x => pyStartsWith x "https://"
    error_msg := "RAILWAY_STATIC_URL必须是HTTPS URL"
    default := none }

/-- `EnvironmentManager.REQUIRED_VARS`, in source (insertion) order. -/
def REQUIRED_VARS : List (String × VarSpec) :=
  [("SECRET_KEY", SECRET_KEY_SPEC), ("CORS_ORIGINS", CORS_ORIGINS_SPEC)]

/-- `EnvironmentManager.OPTIONAL_VARS`, in source (insertion) order. -/
def OPTIONAL_VARS : List (String × VarSpec) :=
  [("DATABASE_URL", DATABASE_URL_SPEC), ("RAILWAY_STATIC_URL", RAILWAY_STATIC_URL_SPEC)]

/-- All schema variable names, required first, then optional. -/
def SCHEMA_VAR_NAMES : List String :=
  REQUIRED_VARS.map Prod.fst ++ OPTIONAL_VARS.map Prod.fst

/-- Body of the required-variable loop of `validate_environment_variables`,
for one entry; `value?` is the result of `os.getenv(var_name)`. -/
def requiredItem (value? : Option String) (varName : String) (config : VarSpec) : ConfigItem :=
  match value? with
  | none =>
    { name := varName, value := none, status := .missing
      message := "缺少必需的环境变量: " ++ config.description, required := true }
  | some v =>
    if !config.validator v then
      { name := varName, value := some v, status := .invalid
        message := config.error_msg, required := true }
    else
      { name := varName, value := some v, status := .valid
        message := "✓ " ++ config.description ++ "配置正确", required := true }

/-- Body of the optional-variable loop of `validate_environment_variables`,
for one entry. The `if default_value:` truthiness test makes an empty-string
default behave like no default. -/
def optionalItem (value? : Option String) (varName : String) (config : VarSpec) : ConfigItem :=
  match value? with
  | none =>
    match config.default with
    | some d =>
      if !(d == "") then
        { name := varName, value := some d, status := .warning
          message := "使用默认值: " ++ d, required := false }
      else
        { name := varName, value := none, status := .warning
          message := "可选变量未设置: " ++ config.description, required := false }
    | none =>
      { name := varName, value := none, status := .warning
        message := "可选变量未设置: " ++ config.description, required := false }
  | some v =>
    if !config.validator v then
      { name := varName, value := some v, status := .invalid
        message := config.error_msg, required := false }
    else
      { name := varName, value := some v, status := .valid
        message := "✓ " ++ config.description ++ "配置正确", required := false }

/-- The trailing aggregation of `validate_environment_variables`: overall
status and summary from the `has_errors` / `has_warnings` flags. -/
def overallStatusSummary (has_errors has_warnings : Bool) : ConfigStatus × String :=
  if has_errors then (.invalid, "配置验证失败：存在必需变量缺失或无效")
  else if has_warnings then (.warning, "配置基本正确，但存在警告项")
  else (.valid, "所有配置项验证通过")

/-- `EnvironmentManager.validate_environment_variables`. The loops append one
item per schema entry; `has_errors` is set exactly in the MISSING and INVALID
branches of the required loop, `has_warnings` exactly in the WARNING and
INVALID branches of the optional loop, so the flags equal `any` over the
produced items. -/
def validate_environment_variables (env : Env) : ConfigReport :=
  let req := REQUIRED_VARS.map fun p => requiredItem (env p.1) p.1 p.2
  let opt := OPTIONAL_VARS.map fun p => optionalItem (env p.1) p.1 p.2
  let has_errors := req.any fun i => i.status == .missing || i.status == .invalid
  let has_warnings := opt.any fun i => i.status == .warning || i.status == .invalid
  let agg := overallStatusSummary has_errors has_warnings
  { items := req ++ opt, overall_status := agg.1, summary := agg.2 }

/-- `EnvironmentManager.get_api_base_url`: return `RAILWAY_STATIC_URL` when
truthy (present and non-empty), else the local default. -/
def get_api_base_url (env : Env) : String :=
  match env "RAILWAY_STATIC_URL" with
  | some railway_url => if !(railway_url == "") then railway_url else "http://localhost:8000"
  | none => "http://localhost:8000"

/-- `EnvironmentManager.get_cors_origins`: `os.getenv` with a default, split
on commas, strip each element, keep the truthy (non-empty) ones. -/
def get_cors_origins (env : Env) : List String :=
  let origins_raw := (env "CORS_ORIGINS").getD "http://localhost:5173"
  (pySplit origins_raw ',').filterMap fun o =>
    let t := pystrip o
    if t == "" then none else some t

/-- `_get_config_recommendations` loop body (`src/main.py`): status tags are
compared through `.value` strings there. -/
def recStep (acc : List String) (item : ConfigItem) : List String :=
  if item.status.value == "missing" && item.required then
    acc ++ ["设置必需的环境变量 " ++ item.name]
  else if item.status.value == "invalid" then
    acc ++ ["修复环境变量 " ++ item.name ++ " 的格式"]
  else if item.status.value == "warning" then
    acc ++ ["考虑设置可选环境变量 " ++ item.name]
  else acc

/-- `_get_config_recommendations` from `src/main.py`. -/
def get_config_recommendations (report : ConfigReport) : List String :=
  let recommendations := report.items.foldl recStep []
  if recommendations.isEmpty then ["配置看起来不错！"] else recommendations

/-- Loop body of `print_recommendations` (`src/validate_config.py`): only the
missing-required and invalid cases append an entry; there is no WARNING case
and no affirmative fallback in that renderer. -/
def cliRecStep (acc : List String) (item : ConfigItem) : List String :=
  if item.status == .missing && item.required then
    acc ++ ["设置必需的环境变量: export " ++ item.name ++ "=<值>"]
  else if item.status == .invalid then
    acc ++ ["修复环境变量 " ++ item.name ++ " 的格式"]
  else acc

/-- The recommendation list accumulated by `print_recommendations`
(`src/validate_config.py`) before it is printed. -/
def print_recommendations_list (report : ConfigReport) : List String :=
  report.items.foldl cliRecStep []

/-- Per-item recommendation entry implied by the spec's recommendation table,
matching the branch structure of `_get_config_recommendations`. -/
def recEntry (item : ConfigItem) : Option String :=
  if item.status.value == "missing" && item.required then
    some ("设置必需的环境变量 " ++ item.name)
  else if item.status.value == "invalid" then
    some ("修复环境变量 " ++ item.name ++ " 的格式")
  else if item.status.value == "warning" then
    some ("考虑设置可选环境变量 " ++ item.name)
  else none

/-- Per-item entry actually emitted by the CLI renderer
`print_recommendations`: no WARNING case. -/
def cliRecEntry (item : ConfigItem) : Option String :=
  if item.status == .missing && item.required then
    some ("设置必需的环境变量: export " ++ item.name ++ "=<值>")
  else if item.status == .invalid then
    some ("修复环境变量 " ++ item.name ++ " 的格式")
  else none

/-! Basic facts about the per-item computations. -/

@[simp] theorem requiredItem_name (v? : Option String) (n : String) (c : VarSpec) :
    (requiredItem v? n c).name = n := by
  unfold requiredItem
  cases v? <;> repeat' split
  all_goals rfl

@[simp] theorem requiredItem_required (v? : Option String) (n : String) (c : VarSpec) :
    (requiredItem v? n c).required = true := by
  unfold requiredItem
  cases v? <;> repeat' split
  all_goals rfl

@[simp] theorem optionalItem_name (v? : Option String) (n : String) (c : VarSpec) :
    (optionalItem v? n c).name = n := by
  unfold optionalItem
  cases v? <;> repeat' split
  all_goals rfl

@[simp] theorem optionalItem_required (v? : Option String) (n : String) (c : VarSpec) :
    (optionalItem v? n c).required = false := by
  unfold optionalItem
  cases v? <;> repeat' split
  all_goals rfl

theorem validate_items_eq (env : Env) :
    (validate_environment_variables env).items =
      (REQUIRED_VARS.map fun p => requiredItem (env p.1) p.1 p.2) ++
      (OPTIONAL_VARS.map fun p => optionalItem (env p.1) p.1 p.2) := rfl

theorem validate_overall_eq (env : Env) :
    (validate_environment_variables env).overall_status =
      (overallStatusSummary
        ((REQUIRED_VARS.map fun p => requiredItem (env p.1) p.1 p.2).any
          fun i => i.status == .missing || i.status == .invalid)
        ((OPTIONAL_VARS.map fun p => optionalItem (env p.1) p.1 p.2).any
          fun i => i.status == .warning || i.status == .invalid)).1 := rfl

/-- C1: for every environment, the report's `overall_status` is INVALID iff
some required item is MISSING or INVALID; otherwise it is WARNING iff some
optional item is WARNING or INVALID; otherwise it is VALID (so an optional
item that is individually INVALID never raises the overall status past
WARNING). -/
theorem C1_overall_status_aggregation (env : Env) :
    ((validate_environment_variables env).overall_status = .invalid ↔
      ∃ i ∈ (validate_environment_variables env).items,
        i.required = true ∧ (i.status = .missing ∨ i.status = .invalid))
    ∧ ((validate_environment_variables env).overall_status ≠ .invalid →
        ((validate_environment_variables env).overall_status = .warning ↔
          ∃ i ∈ (validate_environment_variables env).items,
            i.required = false ∧ (i.status = .warning ∨ i.status = .invalid)))
    ∧ ((validate_environment_variables env).overall_status ≠ .invalid →
        (validate_environment_variables env).overall_status ≠ .warning →
        (validate_environment_variables env).overall_status = .valid) := by
  have hreqflag : ∀ i ∈ (REQUIRED_VARS.map fun p => requiredItem (env p.1) p.1 p.2),
      i.required = true := by
    intro i hi
    obtain ⟨p, _, rfl⟩ := List.mem_map.1 hi
    exact requiredItem_required _ _ _
  have hoptflag : ∀ i ∈ (OPTIONAL_VARS.map fun p => optionalItem (env p.1) p.1 p.2),
      i.required = false := by
    intro i hi
    obtain ⟨p, _, rfl⟩ := List.mem_map.1 hi
    exact optionalItem_required _ _ _
  have hEx1 : (∃ i ∈ (validate_environment_variables env).items,
      i.required = true ∧ (i.status = .missing ∨ i.status = .invalid)) ↔
      ((REQUIRED_VARS.map fun p => requiredItem (env p.1) p.1 p.2).any
        fun i => i.status == .missing || i.status == .invalid) = true := by
    rw [validate_items_eq]
    constructor
    · rintro ⟨i, hi, hflag, hstat⟩
      rcases List.mem_append.1 hi with h | h
      · exact List.any_eq_true.2 ⟨i, h, by rcases hstat with h1 | h1 <;> simp [h1]⟩
      · rw [hoptflag i h] at hflag; cases hflag
    · intro hany
      obtain ⟨i, hi, hstat⟩ := List.any_eq_true.1 hany
      refine ⟨i, List.mem_append.2 (Or.inl hi), hreqflag i hi, ?_⟩
      simpa using hstat
  have hEx2 : (∃ i ∈ (validate_environment_variables env).items,
      i.required = false ∧ (i.status = .warning ∨ i.status = .invalid)) ↔
      ((OPTIONAL_VARS.map fun p => optionalItem (env p.1) p.1 p.2).any
        fun i => i.status == .warning || i.status == .invalid) = true := by
    rw [validate_items_eq]
    constructor
    · rintro ⟨i, hi, hflag, hstat⟩
      rcases List.mem_append.1 hi with h | h
      · rw [hreqflag i h] at hflag; cases hflag
      · exact List.any_eq_true.2 ⟨i, h, by rcases hstat with h1 | h1 <;> simp [h1]⟩
    · intro hany
      obtain ⟨i, hi, hstat⟩ := List.any_eq_true.1 hany
      refine ⟨i, List.mem_append.2 (Or.inr hi), hoptflag i hi, ?_⟩
      simpa using hstat
  rw [hEx1, hEx2, validate_overall_eq]
  cases hE : ((REQUIRED_VARS.map fun p => requiredItem (env p.1) p.1 p.2).any
      fun i => i.status == .missing || i.status == .invalid) <;>
    cases hW : ((OPTIONAL_VARS.map fun p => optionalItem (env p.1) p.1 p.2).any
      fun i => i.status == .warning || i.status == .invalid) <;>
    simp [overallStatusSummary]

/-- Witness for C1: the empty environment misses both required variables,
so by the aggregation rule the overall status is INVALID. -/
theorem C1_overall_status_aggregation_witness :
    (validate_environment_variables (fun _ => none)).overall_status = .invalid :=
  (C1_overall_status_aggregation (fun _ => none)).1.mpr (by decide)

/-- C3: for every environment, the report contains exactly one item per
schema entry, required entries first then optional entries, in schema
iteration order — so the item names are exactly the union of required and
optional schema names. -/
theorem C3_schema_completeness (env : Env) :
    (validate_environment_variables env).items.map ConfigItem.name =
      REQUIRED_VARS.map Prod.fst ++ OPTIONAL_VARS.map Prod.fst
    ∧ (validate_environment_variables env).items.map ConfigItem.name =
      ["SECRET_KEY", "CORS_ORIGINS", "DATABASE_URL", "RAILWAY_STATIC_URL"] := by
  constructor <;>
    simp [validate_items_eq, REQUIRED_VARS, OPTIONAL_VARS]

/-- C2: the per-item case table of `validate_environment_variables`: a
required entry is MISSING when absent, INVALID with the schema's error
message when present but failing its predicate, VALID when present and
passing; an optional entry is WARNING when absent (with or without a
default), INVALID with the schema's error message when present but failing,
VALID when present and passing; and the report contains exactly these
per-entry items. -/
theorem C2_per_item_status (value? : Option String) (n : String) (c : VarSpec) :
    (value? = none → (requiredItem value? n c).status = .missing)
    ∧ (∀ v, value? = some v → c.validator v = false →
        requiredItem value? n c =
          { name := n, value := some v, status := .invalid
            message := c.error_msg, required := true })
    ∧ (∀ v, value? = some v → c.validator v = true →
        (requiredItem value? n c).status = .valid)
    ∧ (value? = none → (optionalItem value? n c).status = .warning)
    ∧ (∀ v, value? = some v → c.validator v = false →
        optionalItem value? n c =
          { name := n, value := some v, status := .invalid
            message := c.error_msg, required := false })
    ∧ (∀ v, value? = some v → c.validator v = true →
        (optionalItem value? n c).status = .valid)
    ∧ (∀ env : Env, ∀ p ∈ REQUIRED_VARS,
        requiredItem (env p.1) p.1 p.2 ∈ (validate_environment_variables env).items)
    ∧ (∀ env : Env, ∀ p ∈ OPTIONAL_VARS,
        optionalItem (env p.1) p.1 p.2 ∈ (validate_environment_variables env).items) := by
  refine ⟨?_, ?_, ?_, ?_, ?_, ?_, ?_, ?_⟩
  · rintro rfl; rfl
  · rintro v rfl hfail
    simp [requiredItem, hfail]
  · rintro v rfl hok
    simp [requiredItem, hok]
  · rintro rfl
    unfold optionalItem
    repeat' split
    all_goals (first | rfl | simp_all)
  · rintro v rfl hfail
    simp [optionalItem, hfail]
  · rintro v rfl hok
    simp [optionalItem, hok]
  · intro env p hp
    rw [validate_items_eq]
    exact List.mem_append.2 (Or.inl (List.mem_map.2 ⟨p, hp, rfl⟩))
  · intro env p hp
    rw [validate_items_eq]
    exact List.mem_append.2 (Or.inr (List.mem_map.2 ⟨p, hp, rfl⟩))

/-- Witness for C2 at concrete inputs: a too-short `SECRET_KEY` is INVALID
with the schema's error message, an absent `SECRET_KEY` is MISSING, an
absent `DATABASE_URL` is WARNING, and a present-but-invalid `DATABASE_URL`
is INVALID with the schema's error message. -/
theorem C2_per_item_status_witness :
    requiredItem (some "short") "SECRET_KEY" SECRET_KEY_SPEC =
      { name := "SECRET_KEY", value := some "short", status := .invalid
        message := SECRET_KEY_SPEC.error_msg, required := true }
    ∧ (requiredItem none "SECRET_KEY" SECRET_KEY_SPEC).status = .missing
    ∧ (optionalItem none "DATABASE_URL" DATABASE_URL_SPEC).status = .warning
    ∧ optionalItem (some "mongodb://x") "DATABASE_URL" DATABASE_URL_SPEC =
      { name := "DATABASE_URL", value := some "mongodb://x", status := .invalid
        message := DATABASE_URL_SPEC.error_msg, required := false } :=
  ⟨(C2_per_item_status (some "short") "SECRET_KEY" SECRET_KEY_SPEC).2.1 "short" rfl (by decide),
   (C2_per_item_status none "SECRET_KEY" SECRET_KEY_SPEC).1 rfl,
   (C2_per_item_status none "DATABASE_URL" DATABASE_URL_SPEC).2.2.2.1 rfl,
   (C2_per_item_status (some "mongodb://x") "DATABASE_URL" DATABASE_URL_SPEC).2.2.2.2.1
     "mongodb://x" rfl (by decide)⟩

/-- C6: the Validator is a pure, deterministic function of the environment
snapshot restricted to the schema variables: any two snapshots that agree on
the schema variable names produce identical reports (same items in the same
order, same overall status, same summary); in particular re-validating the
same snapshot yields an identical report. -/
theorem C6_determinism (env₁ env₂ : Env)
    (h : ∀ n ∈ SCHEMA_VAR_NAMES, env₁ n = env₂ n) :
    validate_environment_variables env₁ = validate_environment_variables env₂ := by
  have h1 : env₁ "SECRET_KEY" = env₂ "SECRET_KEY" :=
    h _ (by simp [SCHEMA_VAR_NAMES, REQUIRED_VARS, OPTIONAL_VARS])
  have h2 : env₁ "CORS_ORIGINS" = env₂ "CORS_ORIGINS" :=
    h _ (by simp [SCHEMA_VAR_NAMES, REQUIRED_VARS, OPTIONAL_VARS])
  have h3 : env₁ "DATABASE_URL" = env₂ "DATABASE_URL" :=
    h _ (by simp [SCHEMA_VAR_NAMES, REQUIRED_VARS, OPTIONAL_VARS])
  have h4 : env₁ "RAILWAY_STATIC_URL" = env₂ "RAILWAY_STATIC_URL" :=
    h _ (by simp [SCHEMA_VAR_NAMES, REQUIRED_VARS, OPTIONAL_VARS])
  simp only [validate_environment_variables, REQUIRED_VARS, OPTIONAL_VARS,
    List.map_cons, List.map_nil, h1, h2, h3, h4]

/-- The empty environment snapshot. -/
def emptyEnv : Env := fun _ => none

/-- A snapshot that only sets a variable outside the schema. -/
def offSchemaEnv : Env := fun n => if n = "DEBUG_FLAG" then some "1" else none

/-- Witness for C6: a snapshot differing from the empty one only outside the
schema validates to the identical report. -/
theorem C6_determinism_witness :
    validate_environment_variables offSchemaEnv = validate_environment_variables emptyEnv :=
  C6_determinism offSchemaEnv emptyEnv (by decide)

/-- The literal reading of the CORS claim (and of §4.1 of the spec): after
splitting on commas and trimming whitespace, the element list is non-empty
and every element — including an empty one left by a stray comma — is `*` or
matches the origin pattern. Stated for comparison with
`validate_cors_origins`, which drops empty elements before the check. -/
def corsOriginsClaimPred (s : String) : Bool :=
  let elems := (pySplit s ',').map pystrip
  !elems.isEmpty && elems.all fun e => e == "*" || matchOriginRegex e

theorem filterMap_strip_eq (l : List String) :
    (l.filterMap fun o => let t := pystrip o; if t == "" then none else some t) =
      (l.map pystrip).filter fun e => !(e == "") := by
  induction l with
  | nil => rfl
  | cons a as ih =>
    simp only [List.filterMap_cons, List.map_cons, List.filter_cons]
    cases h : (pystrip a == "") <;> simpa [h] using ih

/-- C4 counterexample: `"http://a.com,"` splits into `["http://a.com", ""]`;
the code drops the empty element and accepts, while the claim's predicate,
read literally over all split-and-trimmed elements, rejects. -/
theorem C4_cors_counterexample :
    validate_cors_origins "http://a.com," = true
    ∧ corsOriginsClaimPred "http://a.com," = false := by decide

/-- C4 (amended): `validate_cors_origins` returns true iff, after splitting
on commas, trimming whitespace and dropping empty elements, the resulting
list is non-empty and every element is the literal `*` or matches
`^https?://[a-zA-Z0-9.-]+(?::\d+)?$`. -/
theorem C4_cors_validation (s : String) :
    validate_cors_origins s = true ↔
      (((pySplit s ',').map pystrip).filter fun e => !(e == "")) ≠ []
      ∧ ∀ e ∈ ((pySplit s ',').map pystrip).filter fun e => !(e == ""),
          e = "*" ∨ matchOriginRegex e = true := by
  unfold validate_cors_origins
  rw [filterMap_strip_eq]
  by_cases hs : s == ""
  · have hs' : s = "" := by simpa using hs
    subst hs'
    decide
  · simp only [hs, Bool.false_eq_true, if_false]
    cases he : ((pySplit s ',').map pystrip).filter fun e => !(e == "") with
    | nil => simp
    | cons a l =>
      simp [List.all_eq_true, Bool.or_eq_true, beq_iff_eq]

/-- Witness for C4 (amended): a concrete two-origin list is accepted. -/
theorem C4_cors_validation_witness :
    validate_cors_origins "http://localhost:5173,https://example.com" = true :=
  (C4_cors_validation "http://localhost:5173,https://example.com").mpr (by decide)

/-! ### Recommendation renderers (C5) -/

theorem recStep_eq (acc : List String) (i : ConfigItem) :
    recStep acc i = acc ++ (recEntry i).toList := by
  unfold recStep recEntry
  repeat' split
  all_goals simp_all

theorem cliRecStep_eq (acc : List String) (i : ConfigItem) :
    cliRecStep acc i = acc ++ (cliRecEntry i).toList := by
  unfold cliRecStep cliRecEntry
  repeat' split
  all_goals simp_all

theorem foldl_recStep (items : List ConfigItem) (acc : List String) :
    items.foldl recStep acc = acc ++ items.filterMap recEntry := by
  induction items generalizing acc with
  | nil => simp
  | cons i is ih =>
    rw [List.foldl_cons, recStep_eq, ih, List.filterMap_cons]
    cases h : recEntry i <;> simp [h]

theorem foldl_cliRecStep (items : List ConfigItem) (acc : List String) :
    items.foldl cliRecStep acc = acc ++ items.filterMap cliRecEntry := by
  induction items generalizing acc with
  | nil => simp
  | cons i is ih =>
    rw [List.foldl_cons, cliRecStep_eq, ih, List.filterMap_cons]
    cases h : cliRecEntry i <;> simp [h]

/-- An environment where both required variables are valid and both optional
variables are absent, so the report has two VALID and two WARNING items. -/
def validReqEnv : Env := fun n =>
  if n = "SECRET_KEY" then some "aaaaaaaaaaaaaaaaaaaaaaaaaaaaaaaa"
  else if n = "CORS_ORIGINS" then some "http://localhost:5173"
  else none

/-- C5 counterexample: the CLI renderer `print_recommendations`
(`src/validate_config.py`) emits no "consider setting" entry for optional
WARNING items and no affirmative message: on a report that has optional
WARNING items its recommendation list is empty, while the claim requires one
"consider setting" entry per such item. -/
theorem C5_counterexample :
    (∃ i ∈ (validate_environment_variables validReqEnv).items,
      i.required = false ∧ i.status = .warning)
    ∧ print_recommendations_list (validate_environment_variables validReqEnv) = [] := by
  decide

/-- C5 (amended): the HTTP renderer `_get_config_recommendations`
(`src/main.py`) satisfies the claim — one "set the required variable" entry
per MISSING-and-required item, one "fix the format" entry per INVALID item,
one "consider setting" entry per WARNING item, in item order, and exactly
the single affirmative message when no item produces a recommendation. The
CLI renderer `print_recommendations` (`src/validate_config.py`) emits only
the set-required and fix-format entries: no "consider setting" entries and
no affirmative fallback. -/
theorem C5_recommendations (report : ConfigReport) :
    get_config_recommendations report =
      (if (report.items.filterMap recEntry).isEmpty then ["配置看起来不错！"]
       else report.items.filterMap recEntry)
    ∧ print_recommendations_list report = report.items.filterMap cliRecEntry
    ∧ (∀ i ∈ report.items, i.required = false → i.status = .warning →
        ("考虑设置可选环境变量 " ++ i.name) ∈ get_config_recommendations report)
    ∧ ((∀ i ∈ report.items, recEntry i = none) →
        get_config_recommendations report = ["配置看起来不错！"]) := by
  have h1 : get_config_recommendations report =
      (if (report.items.filterMap recEntry).isEmpty then ["配置看起来不错！"]
       else report.items.filterMap recEntry) := by
    unfold get_config_recommendations
    rw [foldl_recStep]
    simp
  refine ⟨h1, ?_, ?_, ?_⟩
  · unfold print_recommendations_list
    rw [foldl_cliRecStep]
    simp
  · intro i hi hreq hw
    have hentry : recEntry i = some ("考虑设置可选环境变量 " ++ i.name) := by
      unfold recEntry
      rw [hw]
      rfl
    have hmem : ("考虑设置可选环境变量 " ++ i.name) ∈ report.items.filterMap recEntry :=
      List.mem_filterMap.2 ⟨i, hi, hentry⟩
    rw [h1]
    cases hfm : report.items.filterMap recEntry with
    | nil => rw [hfm] at hmem; cases hmem
    | cons a l => rw [hfm] at hmem; simpa using hmem
  · intro hnone
    rw [h1]
    have : report.items.filterMap recEntry = [] := by
      rw [List.filterMap_eq_nil_iff]
      exact hnone
    simp [this]

/-- Witness for C5 (amended): on the report with two optional WARNING items,
the HTTP renderer emits the "consider setting" entry for `DATABASE_URL`. -/
theorem C5_recommendations_witness :
    ("考虑设置可选环境变量 " ++ "DATABASE_URL")
      ∈ get_config_recommendations (validate_environment_variables validReqEnv) :=
  (C5_recommendations (validate_environment_variables validReqEnv)).2.2.1
    ⟨"DATABASE_URL", some "sqlite:///./recipes.db", .warning,
      "使用默认值: sqlite:///./recipes.db", false⟩
    (by decide) rfl rfl

/-! ### Accessors (C9, C10) -/

/-- C9: `get_cors_origins` splits the present `CORS_ORIGINS` value on
commas, trims whitespace, drops empty elements and preserves order; when the
variable is absent it returns the single fixed default origin; when the
value is the literal `*` it returns `["*"]`. -/
theorem C9_get_cors_origins (env : Env) :
    (∀ s, env "CORS_ORIGINS" = some s →
      get_cors_origins env = ((pySplit s ',').map pystrip).filter fun e => !(e == ""))
    ∧ (env "CORS_ORIGINS" = none → get_cors_origins env = ["http://localhost:5173"])
    ∧ (env "CORS_ORIGINS" = some "*" → get_cors_origins env = ["*"]) := by
  refine ⟨?_, ?_, ?_⟩
  · intro s hs
    unfold get_cors_origins
    rw [hs, Option.getD_some, filterMap_strip_eq]
  · intro h
    unfold get_cors_origins
    rw [h]
    decide
  · intro h
    unfold get_cors_origins
    rw [h]
    decide

/-- A snapshot setting only `CORS_ORIGINS`, to the wildcard. -/
def starEnv : Env := fun n => if n = "CORS_ORIGINS" then some "*" else none

/-- Witness for C9: wildcard value and absent-variable fallback. -/
theorem C9_get_cors_origins_witness :
    get_cors_origins starEnv = ["*"]
    ∧ get_cors_origins emptyEnv = ["http://localhost:5173"] :=
  ⟨(C9_get_cors_origins starEnv).2.2 rfl, (C9_get_cors_origins emptyEnv).2.1 rfl⟩

/-- C10: `get_api_base_url` returns a present, non-empty
`RAILWAY_STATIC_URL` verbatim with no format check, and falls back to
`http://localhost:8000` when the variable is absent or empty — whereas the
Validator classifies an empty present value as INVALID. -/
theorem C10_get_api_base_url (env : Env) :
    (∀ v, env "RAILWAY_STATIC_URL" = some v → v ≠ "" → get_api_base_url env = v)
    ∧ (env "RAILWAY_STATIC_URL" = none → get_api_base_url env = "http://localhost:8000")
    ∧ (env "RAILWAY_STATIC_URL" = some "" → get_api_base_url env = "http://localhost:8000")
    ∧ (optionalItem (some "") "RAILWAY_STATIC_URL" RAILWAY_STATIC_URL_SPEC).status
        = .invalid := by
  refine ⟨?_, ?_, ?_, ?_⟩
  · intro v hv hne
    unfold get_api_base_url
    rw [hv]
    simp [hne]
  · intro h
    unfold get_api_base_url
    rw [h]
  · intro h
    unfold get_api_base_url
    rw [h]
    rfl
  · decide

/-- A snapshot whose `RAILWAY_STATIC_URL` is plain HTTP: it fails the
Validator's `https://` predicate yet is returned verbatim. -/
def railwayHttpEnv : Env :=
  fun n => if n = "RAILWAY_STATIC_URL" then some "http://plain.example" else none

/-- Witness for C10: a non-HTTPS value is returned verbatim; the empty
environment falls back to the local default. -/
theorem C10_get_api_base_url_witness :
    get_api_base_url railwayHttpEnv = "http://plain.example"
    ∧ get_api_base_url emptyEnv = "http://localhost:8000" :=
  ⟨(C10_get_api_base_url railwayHttpEnv).1 "http://plain.example" rfl (by decide),
   (C10_get_api_base_url emptyEnv).2.1 rfl⟩

/-! ### Structured form of a report (C7)

`ConfigReport.to_dict` builds a nested dict of primitives; `json.dumps`
followed by `json.loads` is the identity on such values, so the
serialize-then-parse round trip is modelled as decoding the JSON value
produced by `to_dict`. -/

/-- JSON values, as produced by `to_dict` (null, booleans, strings, arrays,
objects). -/
inductive Json where
  | null
  | bool (b : Bool)
  | str (s : String)
  | arr (elems : List Json)
  | obj (fields : List (String × Json))

/-- Field lookup in a JSON object. -/
def lookupField : List (String × Json) → String → Option Json
  | [], _ => none
  | (k, v) :: rest, key => if k = key then some v else lookupField rest key

/-- `j[key]` for an object, `none` otherwise. -/
def Json.getField : Json → String → Option Json
  | .obj fields, key => lookupField fields key
  | _, _ => none

/-- A Python `Optional[str]` as JSON: `None` serializes to null. -/
def jsonOfOptStr : Option String → Json
  | none => .null
  | some s => .str s

/-- The per-item dict built inside `ConfigReport.to_dict`: all five keys are
emitted unconditionally. -/
def itemToDict (item : ConfigItem) : Json :=
  .obj [("name", .str item.name),
        ("value", jsonOfOptStr item.value),
        ("status", .str item.status.value),
        ("message", .str item.message),
        ("required", .bool item.required)]

/-- `ConfigReport.to_dict` from `env_manager.py`. -/
def ConfigReport.to_dict (self : ConfigReport) : Json :=
  .obj [("items", .arr (self.items.map itemToDict)),
        ("overall_status", .str self.overall_status.value),
        ("summary", .str self.summary)]

/-- Parse a status back from its string tag. -/
def statusOfValue (s : String) : Option ConfigStatus :=
  if s = "valid" then some .valid
  else if s = "missing" then some .missing
  else if s = "invalid" then some .invalid
  else if s = "warning" then some .warning
  else none

/-- Parse back an optional string (null or string). -/
def decodeOptStr : Json → Option (Option String)
  | .null => some none
  | .str s => some (some s)
  | _ => none

/-- Reconstruct a `ConfigItem` from its structured form. -/
def decodeItem (j : Json) : Option ConfigItem :=
  match j.getField "name", j.getField "value", j.getField "status",
      j.getField "message", j.getField "required" with
  | some (.str n), some v, some (.str st), some (.str msg), some (.bool req) =>
    match decodeOptStr v, statusOfValue st with
    | some val, some stat =>
      some { name := n, value := val, status := stat, message := msg, required := req }
    | _, _ => none
  | _, _, _, _, _ => none

/-- Reconstruct a list of items. -/
def decodeItems : List Json → Option (List ConfigItem)
  | [] => some []
  | j :: js =>
    match decodeItem j, decodeItems js with
    | some i, some is => some (i :: is)
    | _, _ => none

/-- Reconstruct a `ConfigReport` from its structured form. -/
def decodeReport (j : Json) : Option ConfigReport :=
  match j.getField "items", j.getField "overall_status", j.getField "summary" with
  | some (.arr itemsJ), some (.str ov), some (.str sm) =>
    match decodeItems itemsJ, statusOfValue ov with
    | some items, some stat =>
      some { items := items, overall_status := stat, summary := sm }
    | _, _ => none
  | _, _, _ => none

theorem statusOfValue_value (st : ConfigStatus) : statusOfValue st.value = some st := by
  cases st <;> rfl

theorem decodeItem_itemToDict (item : ConfigItem) :
    decodeItem (itemToDict item) = some item := by
  obtain ⟨n, v, st, msg, req⟩ := item
  cases v <;> cases st <;> rfl

theorem decodeItems_map (items : List ConfigItem) :
    decodeItems (items.map itemToDict) = some items := by
  induction items with
  | nil => rfl
  | cons i is ih =>
    simp only [List.map_cons, decodeItems, decodeItem_itemToDict, ih]

theorem decodeReport_to_dict_match (items : List ConfigItem) (ov : ConfigStatus)
    (sm : String) :
    decodeReport (ConfigReport.to_dict ⟨items, ov, sm⟩) =
      (match decodeItems (items.map itemToDict), statusOfValue ov.value with
       | some is, some stat => some (⟨is, stat, sm⟩ : ConfigReport)
       | _, _ => none) := rfl

/-- C7: the structured form produced by `to_dict` carries every item field
unconditionally — `name`, `value` (null when absent, never an omitted key),
`status` as its string tag, `message`, `required` — plus the report-level
`overall_status` and `summary`, and decoding the serialized form
reconstructs the report exactly. -/
theorem C7_to_dict_round_trip (report : ConfigReport) :
    decodeReport (ConfigReport.to_dict report) = some report
    ∧ (∀ item ∈ report.items,
        (itemToDict item).getField "name" = some (.str item.name)
        ∧ (itemToDict item).getField "value" = some (jsonOfOptStr item.value)
        ∧ (itemToDict item).getField "status" = some (.str item.status.value)
        ∧ (itemToDict item).getField "message" = some (.str item.message)
        ∧ (itemToDict item).getField "required" = some (.bool item.required))
    ∧ (ConfigReport.to_dict report).getField "overall_status"
        = some (.str report.overall_status.value)
    ∧ (ConfigReport.to_dict report).getField "summary" = some (.str report.summary) := by
  obtain ⟨items, ov, sm⟩ := report
  refine ⟨?_, ?_, rfl, rfl⟩
  · rw [decodeReport_to_dict_match, decodeItems_map, statusOfValue_value]
  · intro item _
    exact ⟨rfl, rfl, rfl, rfl, rfl⟩

/-- Witness for C7 at a concrete report: the report of the empty environment
decodes back from its structured form. -/
theorem C7_to_dict_round_trip_witness :
    decodeReport (ConfigReport.to_dict (validate_environment_variables emptyEnv))
      = some (validate_environment_variables emptyEnv)
    ∧ (itemToDict
        ⟨"RAILWAY_STATIC_URL", none, .warning,
          "可选变量未设置: Railway静态URL", false⟩).getField "value"
      = some .null :=
  ⟨(C7_to_dict_round_trip (validate_environment_variables emptyEnv)).1,
   ((C7_to_dict_round_trip (validate_environment_variables emptyEnv)).2.1
      ⟨"RAILWAY_STATIC_URL", none, .warning, "可选变量未设置: Railway静态URL", false⟩
      (by decide)).2.1⟩

/-! ### Predicate failure propagation (C8)

`validate_environment_variables` calls `config["validator"](value)` with no
surrounding `try`/`except`, so an exception raised by a predicate aborts the
call and propagates to the caller. To state this, the validator loops are
re-embedded with predicates in an exception monad (`Except String`); the
pure schema is a special case (`validateE_pure`). -/

/-- A schema entry whose predicate may raise (`Except.error`) instead of
returning a boolean. -/
structure VarSpecE where
  description : String
  validator : String → Except String Bool
  error_msg : String
  default : Option String := none

/-- Required-loop body with a possibly-raising predicate: the predicate call
is not guarded, so its error aborts the computation. -/
def requiredItemE (value? : Option String) (varName : String) (config : VarSpecE) :
    Except String ConfigItem :=
  match value? with
  | none =>
    .ok { name := varName, value := none, status := .missing
          message := "缺少必需的环境变量: " ++ config.description, required := true }
  | some v =>
    match config.validator v with
    | .error e => .error e
    | .ok b =>
      if !b then
        .ok { name := varName, value := some v, status := .invalid
              message := config.error_msg, required := true }
      else
        .ok { name := varName, value := some v, status := .valid
              message := "✓ " ++ config.description ++ "配置正确", required := true }

/-- Optional-loop body with a possibly-raising predicate. -/
def optionalItemE (value? : Option String) (varName : String) (config : VarSpecE) :
    Except String ConfigItem :=
  match value? with
  | none =>
    match config.default with
    | some d =>
      if !(d == "") then
        .ok { name := varName, value := some d, status := .warning
              message := "使用默认值: " ++ d, required := false }
      else
        .ok { name := varName, value := none, status := .warning
              message := "可选变量未设置: " ++ config.description, required := false }
    | none =>
      .ok { name := varName, value := none, status := .warning
            message := "可选变量未设置: " ++ config.description, required := false }
  | some v =>
    match config.validator v with
    | .error e => .error e
    | .ok b =>
      if !b then
        .ok { name := varName, value := some v, status := .invalid
              message := config.error_msg, required := false }
      else
        .ok { name := varName, value := some v, status := .valid
              message := "✓ " ++ config.description ++ "配置正确", required := false }

/-- Run the loop over a schema table, stopping at the first raised error
(uncaught-exception semantics). -/
def mapMItems (f : String × VarSpecE → Except String ConfigItem) :
    List (String × VarSpecE) → Except String (List ConfigItem)
  | [] => .ok []
  | p :: ps =>
    match f p with
    | .error e => .error e
    | .ok i =>
      match mapMItems f ps with
      | .error e => .error e
      | .ok is => .ok (i :: is)

/-- `validate_environment_variables` over a raising-predicate schema. -/
def validateE (req opt : List (String × VarSpecE)) (env : Env) :
    Except String ConfigReport :=
  match mapMItems (fun p => requiredItemE (env p.1) p.1 p.2) req with
  | .error e => .error e
  | .ok reqItems =>
    match mapMItems (fun p => optionalItemE (env p.1) p.1 p.2) opt with
    | .error e => .error e
    | .ok optItems =>
      let agg := overallStatusSummary
        (reqItems.any fun i => i.status == .missing || i.status == .invalid)
        (optItems.any fun i => i.status == .warning || i.status == .invalid)
      .ok { items := reqItems ++ optItems, overall_status := agg.1, summary := agg.2 }

/-- Embed a pure schema entry into the raising form. -/
def VarSpec.toE (c : VarSpec) : VarSpecE :=
  { description := c.description
    validator := fun v => .ok (c.validator v)
    error_msg := c.error_msg
    default := c.default }

theorem requiredItemE_pure (value? : Option String) (n : String) (c : VarSpec) :
    requiredItemE value? n c.toE = .ok (requiredItem value? n c) := by
  cases value? with
  | none => rfl
  | some v =>
    cases hb : c.validator v <;>
      simp [requiredItemE, requiredItem, VarSpec.toE, hb]

theorem optionalItemE_pure (value? : Option String) (n : String) (c : VarSpec) :
    optionalItemE value? n c.toE = .ok (optionalItem value? n c) := by
  cases value? with
  | none =>
    cases hd : c.default with
    | none => simp [optionalItemE, optionalItem, VarSpec.toE, hd]
    | some d =>
      cases he : (d == "") <;>
        simp [optionalItemE, optionalItem, VarSpec.toE, hd, he]
  | some v =>
    cases hb : c.validator v <;>
      simp [optionalItemE, optionalItem, VarSpec.toE, hb]

theorem requiredItemE_error (n : String) (c : VarSpecE) (v e : String)
    (herr : c.validator v = .error e) :
    requiredItemE (some v) n c = .error e := by
  simp only [requiredItemE, herr]

theorem optionalItemE_error (n : String) (c : VarSpecE) (v e : String)
    (herr : c.validator v = .error e) :
    optionalItemE (some v) n c = .error e := by
  simp only [optionalItemE, herr]

/-- On the concrete schema, whose predicates are total, the raising-predicate
embedding never raises and agrees with `validate_environment_variables`. -/
theorem validateE_pure (env : Env) :
    validateE (REQUIRED_VARS.map fun p => (p.1, p.2.toE))
        (OPTIONAL_VARS.map fun p => (p.1, p.2.toE)) env
      = .ok (validate_environment_variables env) := by
  simp only [validateE, REQUIRED_VARS, OPTIONAL_VARS, List.map_cons, List.map_nil,
    mapMItems, requiredItemE_pure, optionalItemE_pure]
  rfl

theorem mapMItems_ok_forall {f : String × VarSpecE → Except String ConfigItem}
    {l : List (String × VarSpecE)} {items : List ConfigItem}
    (h : mapMItems f l = .ok items) : ∀ p ∈ l, ∃ i, f p = .ok i := by
  induction l generalizing items with
  | nil => intro p hp; cases hp
  | cons q qs ih =>
    intro p hp
    unfold mapMItems at h
    cases hf : f q with
    | error e => rw [hf] at h; cases h
    | ok i =>
      rw [hf] at h
      cases hrest : mapMItems f qs with
      | error e => rw [hrest] at h; cases h
      | ok is =>
        rcases List.mem_cons.1 hp with rfl | hp'
        · exact ⟨i, hf⟩
        · exact ih hrest p hp'

/-- C8: if a schema entry's predicate raises on a present value, the
validation run propagates an error to its caller and never produces a
`ConfigReport` (so the failure is not coerced into a VALID, MISSING, INVALID
or WARNING item status). -/
theorem C8_predicate_error_propagates (req opt : List (String × VarSpecE)) (env : Env)
    (n : String) (c : VarSpecE) (v e : String)
    (hmem : (n, c) ∈ req ∨ (n, c) ∈ opt)
    (hv : env n = some v)
    (herr : c.validator v = .error e) :
    ∃ msg, validateE req opt env = .error msg := by
  cases hres : validateE req opt env with
  | error msg => exact ⟨msg, rfl⟩
  | ok r =>
    exfalso
    unfold validateE at hres
    cases hreq : mapMItems (fun p => requiredItemE (env p.1) p.1 p.2) req with
    | error e' => rw [hreq] at hres; cases hres
    | ok reqItems =>
      rw [hreq] at hres
      cases hopt : mapMItems (fun p => optionalItemE (env p.1) p.1 p.2) opt with
      | error e' => rw [hopt] at hres; cases hres
      | ok optItems =>
        rcases hmem with hm | hm
        · obtain ⟨i, hi⟩ := mapMItems_ok_forall hreq (n, c) hm
          have hne : requiredItemE (env (n, c).1) (n, c).1 (n, c).2 = .error e := by
            show requiredItemE (env n) n c = .error e
            rw [hv]
            exact requiredItemE_error n c v e herr
          rw [hne] at hi
          cases hi
        · obtain ⟨i, hi⟩ := mapMItems_ok_forall hopt (n, c) hm
          have hne : optionalItemE (env (n, c).1) (n, c).1 (n, c).2 = .error e := by
            show optionalItemE (env n) n c = .error e
            rw [hv]
            exact optionalItemE_error n c v e herr
          rw [hne] at hi
          cases hi

/-- A schema entry whose predicate always raises. -/
def raisingSpec : VarSpecE :=
  { description := "raising"
    validator := fun v => .error ("boom " ++ v)
    error_msg := "unused" }

/-- A snapshot that sets the raising entry's variable. -/
def raisingEnv : Env := fun n => if n = "X" then some "1" else none

/-- Witness for C8: with the raising entry present, the run returns an
error, not a report. -/
theorem C8_predicate_error_propagates_witness :
    ∃ msg, validateE [("X", raisingSpec)] [] raisingEnv = .error msg :=
  C8_predicate_error_propagates [("X", raisingSpec)] [] raisingEnv "X" raisingSpec "1"
    ("boom 1") (Or.inl (List.mem_singleton_self _)) rfl rfl

end RecipeEnv
